import Mathlib

/-!
Verification of the TLC5940 SPI LED controller driver (leds-tlc5940.c)
against its natural-language specification.

The development shallowly embeds the driver's protocol core:
  * the timing constants (TLC5940_GSCLK_*, TLC5940_BLANK_PERIOD_NS),
  * the packed-framebuffer geometry (TLC5940_FB_SIZE, FB_OFFSET_BITS),
  * the frame encoder tlc5940_update_fb,
  * the brightness setter tlc5940_set_brightness,
  * the per-tick timer callback tlc5940_timer_func together with the
    work item tlc5940_work that it schedules.

C arrays are embedded as functions Nat → Nat (byte values kept below 256
by the encoder itself, which is proved); u8/u16 truncation points of the
C code are made explicit with &&& masks exactly where the source has
them.  The hrtimer, gpio and spi collaborators are external to the
repository; their calls are recorded as explicit actions (Act) so the
scheduler's observable behaviour per tick is a value.
-/

namespace Tlc5940

/-- From leds-tlc5940.c line 28: grayscale clock frequency in Hz. -/
def TLC5940_GSCLK_SPEED_HZ : Nat := 2500000

/-- From line 29: 1e9 / TLC5940_GSCLK_SPEED_HZ, truncated to unsigned long. -/
def TLC5940_GSCLK_PERIOD_NS : Nat := 1000000000 / TLC5940_GSCLK_SPEED_HZ

/-- From line 31: one full 4096-count grayscale counter cycle. -/
def TLC5940_BLANK_PERIOD_NS : Nat := 4096 * TLC5940_GSCLK_PERIOD_NS

/-- From line 33. -/
def TLC5940_MAX_LEDS : Nat := 16

/-- From line 34. -/
def TLC5940_GS_CHANNEL_WIDTH : Nat := 12

/-- From line 39. -/
def TLC5940_FB_SIZE_BITS : Nat := TLC5940_MAX_LEDS * TLC5940_GS_CHANNEL_WIDTH

/-- From line 40: framebuffer byte count (bits >> 3). -/
def TLC5940_FB_SIZE : Nat := TLC5940_FB_SIZE_BITS >>> 3

/-- From lines 47-50: bit offset of a led's channel field, counted from
the start (byte 0) of the framebuffer. -/
def FB_OFFSET_BITS (led : Nat) : Nat :=
  TLC5940_FB_SIZE_BITS - TLC5940_GS_CHANNEL_WIDTH * (led + 1)

/-- From line 51: byte offset of a led's channel field. -/
def FB_OFFSET (led : Nat) : Nat := FB_OFFSET_BITS led >>> 3

/-- C array store: fb[i] = v. -/
def store (fb : Nat → Nat) (i v : Nat) : Nat → Nat :=
  fun j => if j = i then v else fb j

/-- One iteration of the encoder loop body (lines 111-127) for a given
led id.  brightness is led->brightness & 0xfff; the even ("mid_byte")
branch writes the low nibble of fb[offset] and all of fb[offset+1]; the
odd branch writes all of fb[offset] and the high nibble of fb[offset+1]. -/
def tlc5940_update_fb_step (brightness_of : Nat → Nat) (fb : Nat → Nat) (id : Nat) :
    Nat → Nat :=
  let brightness := brightness_of id &&& 0xfff
  let offset := FB_OFFSET id
  if id % 2 = 0 then
    let fb1 := store fb offset ((fb offset &&& 0xf0) ||| (brightness >>> 8))
    store fb1 (offset + 1) (brightness &&& 0xff)
  else
    let fb1 := store fb offset (brightness >>> 4)
    store fb1 (offset + 1) ((fb1 (offset + 1) &&& 0x0f) ||| ((brightness <<< 4) &&& 0xf0))

/-- The frame encoder tlc5940_update_fb (lines 104-129): the loop over
all TLC5940_MAX_LEDS led ids, in ascending order, updating the shared
framebuffer in place. -/
def tlc5940_update_fb (brightness_of : Nat → Nat) (fb : Nat → Nat) : Nat → Nat :=
  (List.range TLC5940_MAX_LEDS).foldl (tlc5940_update_fb_step brightness_of) fb

/-- The byte sequence handed to spi_write(spi, fb, TLC5940_FB_SIZE)
(line 143). -/
def spiBuf (fb : Nat → Nat) : List Nat :=
  (List.range TLC5940_FB_SIZE).map fb

/-- The masked 12-bit grayscale value of a channel (line 115 of the
source: led->brightness & 0xfff). -/
def gs12 (brightness_of : Nat → Nat) (id : Nat) : Nat :=
  brightness_of id &&& 0xfff

/-- Closed form of the encoder's output byte j: byte triple 3m..3m+2
holds channels 15-2m (odd) and 14-2m (even). -/
def encByte (brightness_of : Nat → Nat) (j : Nat) : Nat :=
  let m := j / 3
  let hi := gs12 brightness_of (15 - 2 * m)
  let lo := gs12 brightness_of (14 - 2 * m)
  if j % 3 = 0 then hi >>> 4
  else if j % 3 = 1 then ((hi <<< 4) &&& 0xf0) ||| (lo >>> 8)
  else lo &&& 0xff

lemma and_or_distrib_right_nat (x y m : Nat) :
    (x ||| y) &&& m = (x &&& m) ||| (y &&& m) := by
  rw [Nat.and_comm, Nat.and_or_distrib_left, Nat.and_comm m x, Nat.and_comm m y]

lemma gs12_lt (br : Nat → Nat) (id : Nat) : gs12 br id < 4096 :=
  lt_of_le_of_lt Nat.and_le_right (by norm_num)

/-- The middle byte of a triple, as produced by the in-place
read-modify-write of the loop, simplifies to a value independent of the
framebuffer's prior byte x. -/
lemma mid_byte_eq (x a b : Nat) :
    (((x &&& 0xf0) ||| ((a &&& 0xfff) >>> 8)) &&& 0x0f) |||
      (((b &&& 0xfff) <<< 4) &&& 0xf0)
    = (((b &&& 0xfff) <<< 4) &&& 0xf0) ||| ((a &&& 0xfff) >>> 8) := by
  have hx : (x &&& 0xf0) &&& 0x0f = 0 := by
    rw [Nat.and_assoc, show (0xf0 : Nat) &&& 0x0f = 0 from rfl, Nat.and_zero]
  have hbound : (a &&& 0xfff) >>> 8 < 16 := by
    have h1 : a &&& 0xfff ≤ 0xfff := Nat.and_le_right
    have h2 : (a &&& 0xfff) >>> 8 = (a &&& 0xfff) / 2 ^ 8 := Nat.shiftRight_eq_div_pow _ _
    rw [h2]
    omega
  have ha : ((a &&& 0xfff) >>> 8) &&& 0x0f = (a &&& 0xfff) >>> 8 := by
    have : ((a &&& 0xfff) >>> 8) &&& 0x0f = ((a &&& 0xfff) >>> 8) % 2 ^ 4 := by
      have := Nat.and_pow_two_sub_one_eq_mod ((a &&& 0xfff) >>> 8) 4
      norm_num at this ⊢
      exact this
    rw [this, Nat.mod_eq_of_lt (by norm_num at hbound ⊢; omega)]
  rw [and_or_distrib_right_nat, hx, ha, Nat.zero_or, Nat.or_comm]

/-- Per-byte closed form of the encoder: every output byte j < 24 is
determined by at most two channel values, independently of the
framebuffer's prior contents. -/
lemma update_fb_byte_eq (br fb : Nat → Nat) :
    ∀ j, j < 24 → tlc5940_update_fb br fb j = encByte br j := by
  have hr : List.range 16 = [0,1,2,3,4,5,6,7,8,9,10,11,12,13,14,15] := rfl
  intro j hj
  interval_cases j <;>
    simp [tlc5940_update_fb, hr, tlc5940_update_fb_step, store,
      FB_OFFSET, FB_OFFSET_BITS, TLC5940_FB_SIZE_BITS, TLC5940_MAX_LEDS,
      TLC5940_GS_CHANNEL_WIDTH, encByte, gs12, mid_byte_eq]

/-- The framebuffer read as one 192-bit big-endian integer: byte 0 is
the most significant byte (it is shifted out to the chip first). -/
def wireWord (fb : Nat → Nat) : Nat :=
  (List.range TLC5940_FB_SIZE).foldl (fun acc j => acc * 256 + fb j) 0

/-- Value of a little-endian list of base-4096 digits. -/
def base4096Val : List Nat → Nat
  | [] => 0
  | d :: ds => d + 4096 * base4096Val ds

lemma base4096Val_extract : ∀ (l : List Nat), (∀ x ∈ l, x < 4096) →
    ∀ i, i < l.length → base4096Val l / 4096 ^ i % 4096 = l.getD i 0 := by
  intro l
  induction l with
  | nil => intro _ i hi; simp at hi
  | cons d ds ih =>
    intro hall i hi
    have hd : d < 4096 := hall d (List.mem_cons_self d ds)
    cases i with
    | zero =>
      simp only [pow_zero, Nat.div_one, base4096Val, Nat.add_mul_mod_self_left,
        List.getD_cons_zero]
      exact Nat.mod_eq_of_lt hd
    | succ i =>
      have h1 : base4096Val (d :: ds) / 4096 ^ (i + 1) = base4096Val ds / 4096 ^ i := by
        have h2 : (4096 : Nat) ^ (i + 1) = 4096 * 4096 ^ i := by
          rw [pow_succ]; ring
        rw [h2, ← Nat.div_div_eq_div_mul]
        have h3 : base4096Val (d :: ds) / 4096 = base4096Val ds := by
          show (d + 4096 * base4096Val ds) / 4096 = base4096Val ds
          rw [Nat.add_mul_div_left _ _ (by norm_num), Nat.div_eq_of_lt hd, Nat.zero_add]
        rw [h3]
      rw [h1, List.getD_cons_succ]
      exact ih (fun x hx => hall x (List.mem_cons_of_mem _ hx)) i (by simpa using hi)

lemma mul16_and_f0 : ∀ b : Fin 16, (b.val * 16) &&& 0xf0 = b.val * 16 := by
  decide

lemma or_mul16 : ∀ u v : Fin 16, (u.val * 16 ||| v.val) = u.val * 16 + v.val := by
  decide

lemma and_fff (n : Nat) : n &&& 0xfff = n % 4096 := by
  have h := Nat.and_pow_two_sub_one_eq_mod n 12
  norm_num at h
  exact h

lemma and_ff_mask (n : Nat) : n &&& 0xff = n % 256 := by
  have h := Nat.and_pow_two_sub_one_eq_mod n 8
  norm_num at h
  exact h

lemma shl16_and_f0 (g : Nat) : (g <<< 4) &&& 0xf0 = g % 16 * 16 := by
  have h1 : (g <<< 4) &&& 0xf0 = ((g * 16) &&& 0xff) &&& 0xf0 := by
    rw [Nat.and_assoc, show (0xff : Nat) &&& 0xf0 = 0xf0 from rfl,
      Nat.shiftLeft_eq, show (2:Nat) ^ 4 = 16 from rfl]
  have h2 : (g * 16) % 256 = g % 16 * 16 := by omega
  rw [h1, and_ff_mask, h2]
  exact mul16_and_f0 ⟨g % 16, Nat.mod_lt _ (by norm_num)⟩

lemma shl_and_f0_masked (n : Nat) :
    ((n &&& 0xfff) <<< 4) &&& 0xf0 = (n &&& 0xfff) % 16 * 16 :=
  shl16_and_f0 (n &&& 0xfff)

lemma or_nib_masked (a b : Nat) :
    ((a &&& 0xfff) % 16 * 16) ||| ((b &&& 0xfff) >>> 8)
      = (a &&& 0xfff) % 16 * 16 + (b &&& 0xfff) >>> 8 :=
  or_mul16 ⟨(a &&& 0xfff) % 16, Nat.mod_lt _ (by norm_num)⟩
    ⟨(b &&& 0xfff) >>> 8, by
      have h1 : b &&& 0xfff ≤ 0xfff := Nat.and_le_right
      rw [Nat.shiftRight_eq_div_pow]
      omega⟩

lemma horner_triple (A h l : Nat) :
    ((A * 256 + h / 16) * 256 + (h % 16 * 16 + l / 256)) * 256 + l % 256
      = (A * 4096 + h) * 4096 + l := by
  omega

/-- The encoder output, read as a big-endian 192-bit word, is the
base-4096 number whose digit i (from the least-significant end) is
channel i's masked brightness: channel 0 sits in the lowest 12 bits
(the last bytes), channel 15 in the highest 12 bits (the first bytes). -/
lemma wireWord_update_fb (br fb : Nat → Nat) :
    wireWord (tlc5940_update_fb br fb)
      = base4096Val ((List.range 16).map (gs12 br)) := by
  have hb := update_fb_byte_eq br fb
  have hsz : TLC5940_FB_SIZE = 24 := rfl
  rw [wireWord, hsz, show List.range 24 =
    [0,1,2,3,4,5,6,7,8,9,10,11,12,13,14,15,16,17,18,19,20,21,22,23] from rfl,
    show List.range 16 = [0,1,2,3,4,5,6,7,8,9,10,11,12,13,14,15] from rfl]
  simp only [List.foldl_cons, List.foldl_nil, List.map_cons, List.map_nil]
  rw [hb 0 (by norm_num), hb 1 (by norm_num), hb 2 (by norm_num), hb 3 (by norm_num),
    hb 4 (by norm_num), hb 5 (by norm_num), hb 6 (by norm_num), hb 7 (by norm_num),
    hb 8 (by norm_num), hb 9 (by norm_num), hb 10 (by norm_num), hb 11 (by norm_num),
    hb 12 (by norm_num), hb 13 (by norm_num), hb 14 (by norm_num), hb 15 (by norm_num),
    hb 16 (by norm_num), hb 17 (by norm_num), hb 18 (by norm_num), hb 19 (by norm_num),
    hb 20 (by norm_num), hb 21 (by norm_num), hb 22 (by norm_num), hb 23 (by norm_num)]
  rw [show encByte br 0 = (br 15 &&& 0xfff) >>> 4 from rfl,
    show encByte br 1 = ((br 15 &&& 0xfff) <<< 4) &&& 0xf0 ||| (br 14 &&& 0xfff) >>> 8 from rfl,
    show encByte br 2 = (br 14 &&& 0xfff) &&& 0xff from rfl,
    show encByte br 3 = (br 13 &&& 0xfff) >>> 4 from rfl,
    show encByte br 4 = ((br 13 &&& 0xfff) <<< 4) &&& 0xf0 ||| (br 12 &&& 0xfff) >>> 8 from rfl,
    show encByte br 5 = (br 12 &&& 0xfff) &&& 0xff from rfl,
    show encByte br 6 = (br 11 &&& 0xfff) >>> 4 from rfl,
    show encByte br 7 = ((br 11 &&& 0xfff) <<< 4) &&& 0xf0 ||| (br 10 &&& 0xfff) >>> 8 from rfl,
    show encByte br 8 = (br 10 &&& 0xfff) &&& 0xff from rfl,
    show encByte br 9 = (br 9 &&& 0xfff) >>> 4 from rfl,
    show encByte br 10 = ((br 9 &&& 0xfff) <<< 4) &&& 0xf0 ||| (br 8 &&& 0xfff) >>> 8 from rfl,
    show encByte br 11 = (br 8 &&& 0xfff) &&& 0xff from rfl,
    show encByte br 12 = (br 7 &&& 0xfff) >>> 4 from rfl,
    show encByte br 13 = ((br 7 &&& 0xfff) <<< 4) &&& 0xf0 ||| (br 6 &&& 0xfff) >>> 8 from rfl,
    show encByte br 14 = (br 6 &&& 0xfff) &&& 0xff from rfl,
    show encByte br 15 = (br 5 &&& 0xfff) >>> 4 from rfl,
    show encByte br 16 = ((br 5 &&& 0xfff) <<< 4) &&& 0xf0 ||| (br 4 &&& 0xfff) >>> 8 from rfl,
    show encByte br 17 = (br 4 &&& 0xfff) &&& 0xff from rfl,
    show encByte br 18 = (br 3 &&& 0xfff) >>> 4 from rfl,
    show encByte br 19 = ((br 3 &&& 0xfff) <<< 4) &&& 0xf0 ||| (br 2 &&& 0xfff) >>> 8 from rfl,
    show encByte br 20 = (br 2 &&& 0xfff) &&& 0xff from rfl,
    show encByte br 21 = (br 1 &&& 0xfff) >>> 4 from rfl,
    show encByte br 22 = ((br 1 &&& 0xfff) <<< 4) &&& 0xf0 ||| (br 0 &&& 0xfff) >>> 8 from rfl,
    show encByte br 23 = (br 0 &&& 0xfff) &&& 0xff from rfl]
  simp only [shl_and_f0_masked]
  simp only [or_nib_masked]
  simp only [Nat.shiftRight_eq_div_pow, show (2:Nat) ^ 4 = 16 from rfl,
    show (2:Nat) ^ 8 = 256 from rfl]
  simp only [and_fff, and_ff_mask]
  simp only [horner_triple]
  simp only [base4096Val, gs12, and_fff]
  ring

/-- Channel id's 12-bit field of the encoded frame, located 12*id bits
above the least-significant end of the big-endian buffer (equivalently
at bit offset FB_OFFSET_BITS id from the buffer's first byte), equals
the stored brightness reduced mod 4096. -/
lemma update_fb_extract (br fb : Nat → Nat) (id : Nat) (hid : id < 16) :
    wireWord (tlc5940_update_fb br fb) / 4096 ^ id % 4096 = br id % 4096 := by
  rw [wireWord_update_fb]
  have hlist : ∀ x ∈ (List.range 16).map (gs12 br), x < 4096 := by
    intro x hx
    rcases List.mem_map.mp hx with ⟨k, _, rfl⟩
    exact gs12_lt br k
  have hlen : id < ((List.range 16).map (gs12 br)).length := by simpa using hid
  rw [base4096Val_extract _ hlist id hlen]
  rw [List.getD_eq_getElem?_getD, List.getElem?_map, List.getElem?_range hid]
  simp [gs12, and_fff]

/-- Device state (struct tlc5940, lines 63-75): per-led stored
brightness (leds[i].brightness), the shared framebuffer fb[], and the
dirty flag new_gs_data.  The external handles (spi, pwm, timer, gpio
number) carry no protocol state and are passed as parameters instead. -/
structure Tlc where
  brightness : Nat → Nat
  fb : Nat → Nat
  new_gs_data : Bool

/-- Externally visible actions of the scheduler: a write to the BLANK
gpio line (gpio_set_value), a bus transfer of a byte buffer
(spi_write), or an error report (dev_err). -/
inductive Act where
  | gpioSet (value : Nat)
  | spiWrite (buf : List Nat)
  | devErr (code : Int)
deriving DecidableEq, Repr

/-- The work item tlc5940_work (lines 131-152): re-encode the
framebuffer from the current channel state, write it to the bus, and
clear the dirty flag only when the write returned 0; on a nonzero
return report the error and leave the flag untouched. -/
def tlc5940_work (tlc : Tlc) (spiRet : Int) : Tlc × List Act :=
  let fb2 := tlc5940_update_fb tlc.brightness tlc.fb
  if spiRet = 0 then
    ({ tlc with fb := fb2, new_gs_data := false }, [Act.spiWrite (spiBuf fb2)])
  else
    ({ tlc with fb := fb2 }, [Act.spiWrite (spiBuf fb2), Act.devErr spiRet])

/-- Modelled from the spec: the Linux hrtimer forwarding primitive
hrtimer_forward_now called at line 86 is part of the kernel, not of
this repository's sources; section 4.3 of the spec describes the
re-arm as "exactly one more period measured from now". -/
def hrtimer_forward_now (now interval : Nat) : Nat := now + interval

/-- Result of one timer expiry: the state after the callback (and the
work item it scheduled, if any, has run), the hardware actions in
program order, whether the callback returned HRTIMER_RESTART, and the
expiry programmed by hrtimer_forward_now. -/
structure TickResult where
  state : Tlc
  acts : List Act
  restart : Bool
  expiry : Nat

/-- The timer callback tlc5940_timer_func (lines 77-102), composed with
the deferred tlc5940_work it schedules when the dirty flag is set. The
callback forwards the timer, bails out with HRTIMER_NORESTART when the
BLANK gpio is invalid, otherwise pulses BLANK high then low and, if
new_gs_data is set, schedules the work item (which runs before the next
tick and is folded into this step). -/
def tlc5940_timer_func (tlc : Tlc) (now : Nat) (gpioValid : Bool) (spiRet : Int) :
    TickResult :=
  let expiry := hrtimer_forward_now now TLC5940_BLANK_PERIOD_NS
  if !gpioValid then
    { state := tlc, acts := [Act.devErr (-22)], restart := false, expiry := expiry }
  else
    let pulses := [Act.gpioSet 1, Act.gpioSet 0]
    if tlc.new_gs_data then
      let w := tlc5940_work tlc spiRet
      { state := w.1, acts := pulses ++ w.2, restart := true, expiry := expiry }
    else
      { state := tlc, acts := pulses, restart := true, expiry := expiry }

/-- The brightness setter tlc5940_set_brightness (lines 154-173): sets
the dirty flag and stores the requested value, unmodified, into the
led's brightness field.  It performs no gpio or bus action. -/
def tlc5940_set_brightness (tlc : Tlc) (id : Nat) (brightness : Nat) : Tlc × List Act :=
  ({ tlc with
      new_gs_data := true
      brightness := store tlc.brightness id brightness }, [])

/-- A sequence of set_brightness calls, folded left to right, together
with the (empty) list of hardware actions they perform. -/
def applyCalls (tlc : Tlc) (calls : List (Nat × Nat)) : Tlc × List Act :=
  calls.foldl
    (fun acc c =>
      let r := tlc5940_set_brightness acc.1 c.1 c.2
      (r.1, acc.2 ++ r.2))
    (tlc, [])

/-- Device state established by tlc5940_probe (lines 175-276): the
struct is devm_kzalloc'ed (all brightness values and framebuffer bytes
zero, matching led->brightness = LED_OFF at line 254), and line 243
sets new_gs_data = 1 before the leds are registered. -/
def tlc5940_probe_state : Tlc :=
  { brightness := fun _ => 0, fb := fun _ => 0, new_gs_data := true }

/-- The bus transfers contained in an action trace. -/
def transmitsOf (acts : List Act) : List (List Nat) :=
  acts.filterMap fun a =>
    match a with
    | .spiWrite b => some b
    | _ => none

namespace V16

/-- The kernel clamp() macro as used at line 450. -/
def clamp (val lo hi : Nat) : Nat := min (max val lo) hi

/-- The scaled and clamped brightness computed by the 16-bit-per-channel
variant's tlc5940_set_brightness (line 450 of the second driver file):
clamp(((u16) brightness) << 4, 0x000, 0xfff).  The u16 cast is the
reduction mod 65536; the shifted value is then an int, so no further
truncation happens before clamp. -/
def scaled_brightness (brightness : Nat) : Nat :=
  clamp ((brightness % 65536) <<< 4) 0x000 0xfff

/-- The 16-bit variant's tlc5940_set_brightness (lines 437-459 of the
combined source): stores the scaled, clamped value into the u16
framebuffer slot of the led's channel. -/
def tlc5940_set_brightness (fb : Nat → Nat) (id : Nat) (brightness : Nat) : Nat → Nat :=
  store fb id (scaled_brightness brightness)

end V16

/-- Snapshot with channel 0 at full scale and all other channels off. -/
def brCh0 : Nat → Nat := fun i => if i = 0 then 0xfff else 0

/-- Snapshot with channel 15 at full scale and all other channels off. -/
def brCh15 : Nat → Nat := fun i => if i = 15 then 0xfff else 0

/-- An all-zero framebuffer, as left by devm_kzalloc. -/
def fbZero : Nat → Nat := fun _ => 0

/-- C1, counterexample: with channel 0 = 0xFFF and channel 1 = 0, the
claimed layout (channel 0 in the most-significant, first bytes, with
byte0 = a >> 4, byte1 = (a << 4 & 0xf0) | (b >> 8), byte2 = b & 0xff for
the even/odd pair a = channel 0, b = channel 1) would make the first
byte 0xFF; the encoder produces 0 there. -/
theorem c1_counterexample :
    ¬ (tlc5940_update_fb brCh0 fbZero 0 = (0xfff : Nat) >>> 4 ∧
       tlc5940_update_fb brCh0 fbZero 1
         = ((0xfff : Nat) <<< 4) &&& 0xf0 ||| ((0 : Nat) >>> 8) ∧
       tlc5940_update_fb brCh0 fbZero 2 = (0 : Nat) &&& 0xff) := by
  decide

/-- C1 (amended): the encoder packs channel id's 12-bit value at
bit-offset 192 - 12*(id+1) counted from the first byte's MSB, so
channel 15 occupies the first bytes and channel 0 the last bytes (the
reverse of the claimed direction); each byte triple 3m..3m+2 holds the
odd-indexed channel 15-2m followed by the even-indexed channel 14-2m,
with byte0 = odd >> 4, byte1 = (odd << 4 & 0xf0) | (even >> 8),
byte2 = even & 0xff.  Equivalently, the buffer read as a big-endian
192-bit word has channel id in bits 12*id .. 12*id+11 from the
least-significant end. -/
theorem c1_amended_layout (br fb : Nat → Nat) :
    (∀ m, m < 8 →
      tlc5940_update_fb br fb (3 * m) = (br (15 - 2 * m) &&& 0xfff) >>> 4 ∧
      tlc5940_update_fb br fb (3 * m + 1)
        = ((br (15 - 2 * m) &&& 0xfff) <<< 4) &&& 0xf0 |||
            (br (14 - 2 * m) &&& 0xfff) >>> 8 ∧
      tlc5940_update_fb br fb (3 * m + 2) = (br (14 - 2 * m) &&& 0xfff) &&& 0xff) ∧
    (∀ id, id < 16 →
      wireWord (tlc5940_update_fb br fb) / 4096 ^ id % 4096 = br id % 4096) := by
  constructor
  · intro m hm
    interval_cases m <;>
      refine ⟨?_, ?_, ?_⟩ <;> (rw [update_fb_byte_eq br fb _ (by norm_num)]; rfl)
  · intro id hid
    exact update_fb_extract br fb id hid

/-- C1 witness: the amended layout evaluated at the channel-15-full
snapshot, byte triple m = 0 and channel field id = 15. -/
theorem c1_amended_layout_witness :
    tlc5940_update_fb brCh15 fbZero 0 = (brCh15 15 &&& 0xfff) >>> 4 ∧
    wireWord (tlc5940_update_fb brCh15 fbZero) / 4096 ^ 15 % 4096 = brCh15 15 % 4096 :=
  ⟨((c1_amended_layout brCh15 fbZero).1 0 (by norm_num)).1,
    (c1_amended_layout brCh15 fbZero).2 15 (by norm_num)⟩

/-- C2, counterexample: with channel 0 = 0xFFF and all others 0 the
first two encoded bytes are 0x00, 0x00, not the claimed 0xFF, 0xF0
(channel 0 is packed at the end of the buffer, not the start). -/
theorem c2_counterexample :
    ¬ ((spiBuf (tlc5940_update_fb brCh0 fbZero)).take 2 = [0xff, 0xf0]) := by
  decide

/-- C2 (amended): the reference vectors hold with the roles of channel
0 and channel 15 exchanged: channel 15 = 0xFFF, others 0, gives first
two bytes 0xFF, 0xF0 and the rest 0x00; channel 0 = 0xFFF, others 0,
gives last byte 0xFF and low nibble 0xF in the second-to-last byte; all
channels 0xFFF gives all bytes 0xFF; all channels 0 gives all bytes
0x00. -/
theorem c2_amended_vectors :
    spiBuf (tlc5940_update_fb brCh15 fbZero) = 0xff :: 0xf0 :: List.replicate 22 0 ∧
    (spiBuf (tlc5940_update_fb brCh0 fbZero)).getD 23 0 = 0xff ∧
    (spiBuf (tlc5940_update_fb brCh0 fbZero)).getD 22 0 &&& 0x0f = 0xf ∧
    (spiBuf (tlc5940_update_fb brCh0 fbZero)).take 22 = List.replicate 22 0 ∧
    spiBuf (tlc5940_update_fb (fun _ => 0xfff) fbZero) = List.replicate 24 0xff ∧
    spiBuf (tlc5940_update_fb (fun _ => 0) fbZero) = List.replicate 24 0 := by
  decide

/-- C8: encoding is deterministic and total: the transmitted buffer is
a function of the 16 stored brightness values alone, independent of the
framebuffer's prior contents (despite the in-place read-modify-write of
shared bytes), re-encoding is idempotent, and the output length is the
fixed TLC5940_FB_SIZE = 24 = ceil(16*12/8) bytes. -/
theorem c8_deterministic_total (br fbA fbB : Nat → Nat) :
    spiBuf (tlc5940_update_fb br fbA) = spiBuf (tlc5940_update_fb br fbB) ∧
    spiBuf (tlc5940_update_fb br (tlc5940_update_fb br fbA))
      = spiBuf (tlc5940_update_fb br fbA) ∧
    (spiBuf (tlc5940_update_fb br fbA)).length = TLC5940_FB_SIZE ∧
    TLC5940_FB_SIZE = 24 ∧ (16 * 12 + 7) / 8 = 24 := by
  have key : ∀ fb1 fb2 : Nat → Nat,
      spiBuf (tlc5940_update_fb br fb1) = spiBuf (tlc5940_update_fb br fb2) := by
    intro fb1 fb2
    unfold spiBuf
    apply List.map_congr_left
    intro j hj
    have hj24 : j < 24 := by
      have h1 := List.mem_range.mp hj
      have h2 : TLC5940_FB_SIZE = 24 := rfl
      omega
    rw [update_fb_byte_eq br fb1 j hj24, update_fb_byte_eq br fb2 j hj24]
  refine ⟨key fbA fbB, key _ _, ?_, rfl, by norm_num⟩
  simp [spiBuf]

/-- C10: the encoder packs each stored brightness value v reduced mod
4096 (the & 0xfff at line 115) into the channel's 12-bit field, so
out-of-range values wrap around instead of saturating, and the primary
variant's set_brightness stores its input unmodified. -/
theorem c10_wrap_mod4096 (br fb : Nat → Nat) (id : Nat) (hid : id < 16) :
    wireWord (tlc5940_update_fb br fb) / 4096 ^ id % 4096 = br id % 4096 ∧
    (∀ tlc i v, (tlc5940_set_brightness tlc i v).1.brightness i = v) := by
  refine ⟨update_fb_extract br fb id hid, ?_⟩
  intro tlc i v
  simp [tlc5940_set_brightness, store]

/-- C10 witness: a stored value of 4096 encodes as field 0 (full off),
wrapping rather than saturating. -/
theorem c10_wrap_mod4096_witness :
    wireWord (tlc5940_update_fb (fun _ => 4096) fbZero) / 4096 ^ 0 % 4096 = 0 := by
  have h := (c10_wrap_mod4096 (fun _ => 4096) fbZero 0 (by norm_num)).1
  simpa using h

lemma applyCalls_cons (tlc : Tlc) (c : Nat × Nat) (cs : List (Nat × Nat)) :
    applyCalls tlc (c :: cs) = applyCalls (tlc5940_set_brightness tlc c.1 c.2).1 cs :=
  rfl

lemma applyCalls_dirty_mono :
    ∀ (calls : List (Nat × Nat)) (tlc : Tlc), tlc.new_gs_data = true →
      (applyCalls tlc calls).1.new_gs_data = true := by
  intro calls
  induction calls with
  | nil => intro tlc h; exact h
  | cons c cs ih =>
    intro tlc _
    rw [applyCalls_cons]
    exact ih _ rfl

lemma applyCalls_dirty :
    ∀ (calls : List (Nat × Nat)) (tlc : Tlc), calls ≠ [] →
      (applyCalls tlc calls).1.new_gs_data = true := by
  intro calls
  induction calls with
  | nil => intro tlc h; exact absurd rfl h
  | cons c cs ih =>
    intro tlc _
    rw [applyCalls_cons]
    exact applyCalls_dirty_mono cs _ rfl

lemma applyCalls_acts :
    ∀ (calls : List (Nat × Nat)) (tlc : Tlc), (applyCalls tlc calls).2 = [] := by
  intro calls
  induction calls with
  | nil => intro tlc; rfl
  | cons c cs ih =>
    intro tlc
    rw [applyCalls_cons]
    exact ih _

/-- C3, counterexample: in the primary (packed 12-bit) driver,
tlc5940_set_brightness stores the raw input without scaling or
clamping: input 4096 is stored as 4096, outside [0, 4095]. -/
theorem c3_counterexample :
    (tlc5940_set_brightness tlc5940_probe_state 0 4096).1.brightness 0 = 4096 ∧
    ¬ ((tlc5940_set_brightness tlc5940_probe_state 0 4096).1.brightness 0 ≤ 4095) := by
  decide

/-- C3 (amended): the scale-then-clamp behaviour belongs to the 16-bit
historical variant only: there set_brightness shifts the (u16-cast)
input left by 4 and then clamps to [0, 0xfff], so the stored value is
always at most 4095 and any post-scale overflow stores exactly the
boundary 4095; the primary variant's set_brightness stores the input
unmodified (range handling is deferred to the encoder's & 0xfff). -/
theorem c3_amended_scale_clamp (b : Nat) :
    V16.scaled_brightness b ≤ 4095 ∧
    (4095 < (b % 65536) <<< 4 → V16.scaled_brightness b = 4095) ∧
    ((b % 65536) <<< 4 ≤ 4095 → V16.scaled_brightness b = (b % 65536) <<< 4) ∧
    (∀ tlc id v, (tlc5940_set_brightness tlc id v).1.brightness id = v) := by
  unfold V16.scaled_brightness V16.clamp
  refine ⟨min_le_right _ _, ?_, ?_, ?_⟩
  · intro h
    rw [Nat.max_zero]
    exact min_eq_right (le_of_lt h)
  · intro h
    rw [Nat.max_zero]
    exact min_eq_left h
  · intro tlc id v
    simp [tlc5940_set_brightness, store]

/-- C3 witness: input 4096 scales to 65536, overflows the 12-bit range
and is stored as the boundary 4095. -/
theorem c3_amended_scale_clamp_witness :
    4095 < (4096 % 65536) <<< 4 ∧ V16.scaled_brightness 4096 = 4095 :=
  ⟨by decide, (c3_amended_scale_clamp 4096).2.1 (by decide)⟩

/-- C4: every set_brightness call sets the dirty flag; starting from a
dirty state, a tick clears it exactly when the gpio is valid and the
bus write succeeds (the clear at line 150 runs only after a successful
spi_write); probe initialises the flag to true; and therefore the first
valid-gpio tick after probe transmits exactly one buffer whether or not
any set_brightness call happened before it. -/
theorem c4_dirty_flag (tlc : Tlc) (id v now : Nat) (g : Bool) (r : Int)
    (calls : List (Nat × Nat)) :
    (tlc5940_set_brightness tlc id v).1.new_gs_data = true ∧
    (tlc.new_gs_data = true →
      ((tlc5940_timer_func tlc now g r).state.new_gs_data = false ↔
        (g = true ∧ r = 0))) ∧
    tlc5940_probe_state.new_gs_data = true ∧
    transmitsOf
        (tlc5940_timer_func (applyCalls tlc5940_probe_state calls).1 now true r).acts
      = [spiBuf (tlc5940_update_fb (applyCalls tlc5940_probe_state calls).1.brightness
          (applyCalls tlc5940_probe_state calls).1.fb)] := by
  have hd := applyCalls_dirty_mono calls tlc5940_probe_state rfl
  refine ⟨rfl, ?_, rfl, ?_⟩
  · intro h
    cases g <;> by_cases hr : r = 0 <;>
      simp [tlc5940_timer_func, tlc5940_work, h, hr]
  · by_cases hr : r = 0 <;>
      simp [tlc5940_timer_func, tlc5940_work, hd, hr, transmitsOf]

/-- C4 witness: the very first tick after probe, with no set_brightness
call at all, transmits the all-off frame. -/
theorem c4_dirty_flag_witness :
    tlc5940_probe_state.new_gs_data = true ∧
    transmitsOf (tlc5940_timer_func tlc5940_probe_state 0 true 0).acts
      = [spiBuf (tlc5940_update_fb tlc5940_probe_state.brightness
          tlc5940_probe_state.fb)] := by
  have h := c4_dirty_flag tlc5940_probe_state 0 0 0 true 0 []
  exact ⟨h.2.2.1, h.2.2.2⟩

/-- C5: when the bus write fails on a dirty tick, the dirty flag stays
set, the channel data is untouched and the framebuffer holds the
encoded frame, the error is reported, the callback still returns
HRTIMER_RESTART so the timer keeps running, and the failed transmit was
still attempted exactly once. -/
theorem c5_transport_error_retry (tlc : Tlc) (now : Nat) (r : Int)
    (hd : tlc.new_gs_data = true) (hr : r ≠ 0) :
    (tlc5940_timer_func tlc now true r).state.new_gs_data = true ∧
    (tlc5940_timer_func tlc now true r).state.brightness = tlc.brightness ∧
    (tlc5940_timer_func tlc now true r).state.fb
      = tlc5940_update_fb tlc.brightness tlc.fb ∧
    (tlc5940_timer_func tlc now true r).restart = true ∧
    Act.devErr r ∈ (tlc5940_timer_func tlc now true r).acts ∧
    transmitsOf (tlc5940_timer_func tlc now true r).acts
      = [spiBuf (tlc5940_update_fb tlc.brightness tlc.fb)] := by
  simp [tlc5940_timer_func, tlc5940_work, hd, hr, transmitsOf]

/-- C5 witness: a failing write (code -5) on the freshly probed (dirty)
device leaves the dirty flag set. -/
theorem c5_transport_error_retry_witness :
    (tlc5940_timer_func tlc5940_probe_state 0 true (-5)).state.new_gs_data = true ∧
    (tlc5940_timer_func tlc5940_probe_state 0 true (-5)).restart = true :=
  ⟨(c5_transport_error_retry tlc5940_probe_state 0 (-5) rfl (by decide)).1,
    (c5_transport_error_retry tlc5940_probe_state 0 (-5) rfl (by decide)).2.2.2.1⟩

/-- C6: any nonempty burst of set_brightness calls between two ticks
performs no bus action itself, and the next tick issues exactly one
transmit, whose bytes encode the final stored state of all 16 channels
at encode time. -/
theorem c6_coalescing (tlc : Tlc) (calls : List (Nat × Nat)) (now : Nat) (r : Int)
    (hne : calls ≠ []) :
    (applyCalls tlc calls).2 = [] ∧
    transmitsOf (tlc5940_timer_func (applyCalls tlc calls).1 now true r).acts
      = [spiBuf (tlc5940_update_fb (applyCalls tlc calls).1.brightness
          (applyCalls tlc calls).1.fb)] := by
  have hd := applyCalls_dirty calls tlc hne
  refine ⟨applyCalls_acts calls tlc, ?_⟩
  by_cases hr : r = 0 <;>
    simp [tlc5940_timer_func, tlc5940_work, hd, hr, transmitsOf]

/-- C6 witness: two rapid writes to channel 0 coalesce into a single
transmit at the next tick. -/
theorem c6_coalescing_witness :
    transmitsOf
        (tlc5940_timer_func (applyCalls tlc5940_probe_state [(0, 100), (0, 200)]).1
          0 true 0).acts
      = [spiBuf (tlc5940_update_fb
          (applyCalls tlc5940_probe_state [(0, 100), (0, 200)]).1.brightness
          (applyCalls tlc5940_probe_state [(0, 100), (0, 200)]).1.fb)] :=
  (c6_coalescing tlc5940_probe_state [(0, 100), (0, 200)] 0 0 (by decide)).2

/-- C7: every tick with a valid BLANK gpio pulses the line high then
low as its first two actions, before the callback returns
HRTIMER_RESTART (the re-enqueue for the next period); this holds
whatever the dirty flag and whatever the bus outcome; and a clean tick
performs exactly the pulse and zero transmits. -/
theorem c7_blank_pulse (tlc : Tlc) (now : Nat) (r : Int) :
    (tlc5940_timer_func tlc now true r).acts.take 2
      = [Act.gpioSet 1, Act.gpioSet 0] ∧
    (tlc5940_timer_func tlc now true r).restart = true ∧
    (tlc.new_gs_data = false →
      (tlc5940_timer_func tlc now true r).acts = [Act.gpioSet 1, Act.gpioSet 0] ∧
      transmitsOf (tlc5940_timer_func tlc now true r).acts = []) := by
  cases hd : tlc.new_gs_data <;> by_cases hr : r = 0 <;>
    simp [tlc5940_timer_func, tlc5940_work, hd, hr, transmitsOf]

/-- C7 witness: a clean tick on the probed device with the flag cleared
pulses BLANK and transmits nothing. -/
theorem c7_blank_pulse_witness :
    transmitsOf
        (tlc5940_timer_func { tlc5940_probe_state with new_gs_data := false }
          0 true 0).acts = [] :=
  ((c7_blank_pulse { tlc5940_probe_state with new_gs_data := false } 0 0).2.2 rfl).2

/-- C9: on every tick the timer is forwarded by exactly one blank
period from now (line 86), and the blank period is the configured
4096 grayscale-clock periods = 1638400 ns. -/
theorem c9_relative_rearm (tlc : Tlc) (now : Nat) (g : Bool) (r : Int) :
    (tlc5940_timer_func tlc now g r).expiry = now + TLC5940_BLANK_PERIOD_NS ∧
    TLC5940_BLANK_PERIOD_NS = 4096 * TLC5940_GSCLK_PERIOD_NS ∧
    TLC5940_BLANK_PERIOD_NS = 1638400 := by
  refine ⟨?_, rfl, rfl⟩
  cases g <;> cases hd : tlc.new_gs_data <;>
    simp [tlc5940_timer_func, hrtimer_forward_now, hd]

end Tlc5940
